import Mathlib

/-!
Shallow embedding of `opensearch_py_ml/ml/ltr.py`: the Learning-to-Rank
configuration and feature-logging module.  Python dictionaries, lists,
strings, numbers, booleans and `None` are embedded as the inductive `Val`;
Python exceptions raised by the OpenSearch client are embedded as `PyErr`;
a fallible Python call is a Lean function into `Except PyErr`.
-/

/-- A Python/JSON-like value: `None`, `str`, numbers, `bool`, `list`, `dict`
(a `dict` is an association list of string keys, first occurrence wins on
lookup). -/
inductive Val where
  | vnull : Val
  | vstr : String → Val
  | vnum : Rat → Val
  | vbool : Bool → Val
  | varr : List Val → Val
  | vobj : List (String × Val) → Val

/-- The opensearchpy exception taxonomy that `ltr.py` distinguishes:
`ConnectionError`, `RequestError`, any other `OpenSearchException`, and
exceptions outside the opensearchpy hierarchy. -/
inductive PyErr where
  | connectionError : String → PyErr
  | requestError : String → PyErr
  | otherOpenSearchException : String → PyErr
  | otherException : String → PyErr
deriving DecidableEq

/-- `isinstance(e, opensearchpy.OpenSearchException)`. -/
def PyErr.isOpenSearchException : PyErr → Bool
  | .connectionError _ => true
  | .requestError _ => true
  | .otherOpenSearchException _ => true
  | .otherException _ => false

/-- `isinstance(e, opensearchpy.ConnectionError)`. -/
def PyErr.isConnectionError : PyErr → Bool
  | .connectionError _ => true
  | _ => false

/-- `isinstance(e, opensearchpy.RequestError)`. -/
def PyErr.isRequestError : PyErr → Bool
  | .requestError _ => true
  | _ => false

/-- Key lookup in an embedded Python dict (association list). -/
def lookupStr (fields : List (String × Val)) (key : String) : Option Val :=
  (fields.find? (fun kv => kv.1 == key)).map (fun kv => kv.2)

/-- `d.get(key, default)` on an embedded value: succeeds on a dict, raises
`AttributeError` (embedded as `PyErr.otherException`) on anything else,
exactly as `.get` does in Python. -/
def Val.pyGet (v : Val) (key : String) (dflt : Val) : Except PyErr Val :=
  match v with
  | .vobj fields => .ok ((lookupStr fields key).getD dflt)
  | _ => .error (.otherException "AttributeError: no attribute get")

/-- `QueryFeatureExtractor`: one named feature template. -/
structure QueryFeatureExtractor where
  feature_name : String
  params : List String
  query : Val

/-- `QueryFeatureExtractor.__init__`: `self.params = params or ["query"]`,
so both `None` and an empty (falsy) list become the default `["query"]`. -/
def QueryFeatureExtractor.init (feature_name : String) (query : Val)
    (params : Option (List String)) : QueryFeatureExtractor :=
  { feature_name := feature_name
    params := match params with
      | none => ["query"]
      | some ps => if ps.isEmpty then ["query"] else ps
    query := query }

/-- `QueryFeatureExtractor.to_dict`. -/
def QueryFeatureExtractor.to_dict (fe : QueryFeatureExtractor) : Val :=
  .vobj
    [ ("name", .vstr fe.feature_name)
    , ("params", .varr (fe.params.map Val.vstr))
    , ("template_language", .vstr "mustache")
    , ("template", fe.query) ]

/-- `LTRModelConfig`: extractors plus the two derived fields computed in
`__init__`. -/
structure LTRModelConfig where
  feature_extractors : List QueryFeatureExtractor
  featureset_name : String
  feature_names : List String

/-- `LTRModelConfig.__init__`.  Python's `hash` on a tuple of strings is an
arbitrary but fixed function within one process run; it is passed in as
`pyhash`.  `featureset_name` is `f"featureset_{abs(hash(tuple(names)))}"`. -/
def LTRModelConfig.init (pyhash : List String → Int)
    (feature_extractors : List QueryFeatureExtractor) : LTRModelConfig :=
  { feature_extractors := feature_extractors
    featureset_name :=
      "featureset_" ++
        toString (pyhash (feature_extractors.map
          (fun fe => fe.feature_name))).natAbs
    feature_names := feature_extractors.map (fun fe => fe.feature_name) }

/-- `LTRModelConfig.to_dict`. -/
def LTRModelConfig.to_dict (c : LTRModelConfig) : Val :=
  .vobj
    [ ("featureset", .vobj
        [ ("name", .vstr c.featureset_name)
        , ("features", .varr (c.feature_extractors.map
            QueryFeatureExtractor.to_dict)) ]) ]

/-- A hashable Python value, usable as a dict key.  Python's key equality
identifies `True` with `1` and `False` with `0` (`bool` is an `int`
subtype), so booleans are embedded as numbers. -/
inductive PyKey where
  | knull : PyKey
  | kstr : String → PyKey
  | knum : Rat → PyKey
deriving DecidableEq

/-- The dict key an embedded value denotes; `none` for unhashable values
(lists and dicts), where Python raises `TypeError`. -/
def Val.asKey : Val → Option PyKey
  | .vnull => some .knull
  | .vstr s => some (.kstr s)
  | .vnum q => some (.knum q)
  | .vbool b => some (.knum (if b then 1 else 0))
  | .varr _ => none
  | .vobj _ => none

/-- Python truthiness of an embedded value. -/
def Val.truthy : Val → Bool
  | .vnull => false
  | .vstr s => !(s == "")
  | .vnum q => !(q == 0)
  | .vbool b => b
  | .varr xs => !xs.isEmpty
  | .vobj fields => !fields.isEmpty

/-- `v[0]` on an embedded value: first element of a list, first character of
a string; `IndexError` on an empty list, `KeyError` on a dict (our dict keys
are strings, so the integer key `0` is absent), `TypeError` otherwise. -/
def Val.index0 : Val → Except PyErr Val
  | .varr (x :: _) => .ok x
  | .varr [] => .error (.otherException "IndexError: list index out of range")
  | .vstr s =>
      if s == "" then .error (.otherException "IndexError: string index out of range")
      else .ok (.vstr (s.take 1))
  | .vobj _ => .error (.otherException "KeyError: 0")
  | _ => .error (.otherException "TypeError: not subscriptable")

/-- `isinstance(v, dict)`. -/
def Val.isDict : Val → Bool
  | .vobj _ => true
  | _ => false

/-- `d[k] = v` on an embedded Python dict: replace the value at an existing
key in place, else append the new binding (insertion order preserved). -/
def upsert (m : List (PyKey × Val)) (k : PyKey) (v : Val) : List (PyKey × Val) :=
  match m with
  | [] => [(k, v)]
  | (k', v') :: rest =>
      if k' = k then (k', v) :: rest else (k', v') :: upsert rest k v

/-- The surface of the opensearchpy client that `ltr.py` uses, over an
abstract cluster/transport state `σ`: `indices.create(index, body, ignore)`,
`transport.perform_request(method, url, body)` and `search(index, body)`.
Each call transforms the state and returns a response or raises. -/
structure OSClient (σ : Type) where
  indicesCreate : σ → String → Val → List Nat → σ × Except PyErr Val
  performRequest : σ → String → String → Val → σ × Except PyErr Val
  search : σ → String → Val → σ × Except PyErr Val

/-- `FeatureLogger`'s fields after a completed `__init__`. -/
structure FeatureLogger (σ : Type) where
  os_client : OSClient σ
  index_name : String
  ltr_config : LTRModelConfig

/-- `FeatureLogger._initialize_plugin`: create the reserved `.ltrstore`
index with `ignore=400`; any `OpenSearchException` is caught (and printed),
anything else propagates. -/
def FeatureLogger.initialize_plugin (client : OSClient σ) (s : σ) :
    Except PyErr σ :=
  match client.indicesCreate s ".ltrstore" (.vobj []) [400] with
  | (s', .ok _) => .ok s'
  | (s', .error e) =>
      if e.isOpenSearchException then .ok s' else .error e

/-- `FeatureLogger._register_featureset`: POST the config to the LTR
feature-set endpoint; only `RequestError` is caught (and printed), anything
else — including `ConnectionError` — propagates. -/
def FeatureLogger.register_featureset (client : OSClient σ)
    (ltr_config : LTRModelConfig) (s : σ) : Except PyErr σ :=
  match client.performRequest s "POST"
      ("/_ltr/_featureset/" ++ ltr_config.featureset_name)
      ltr_config.to_dict with
  | (s', .ok _) => .ok s'
  | (s', .error e) =>
      if e.isRequestError then .ok s' else .error e

/-- `FeatureLogger.__init__`: store the fields, then run
`_initialize_plugin` and `_register_featureset` in order; an uncaught
exception from either aborts construction. -/
def FeatureLogger.construct (client : OSClient σ) (index_name : String)
    (ltr_config : LTRModelConfig) (s : σ) :
    Except PyErr (FeatureLogger σ × σ) := do
  let s1 ← FeatureLogger.initialize_plugin client s
  let s2 ← FeatureLogger.register_featureset client ltr_config s1
  .ok ({ os_client := client, index_name := index_name,
         ltr_config := ltr_config }, s2)

/-- The search body built by `FeatureLogger.extract_features`. -/
def extractFeaturesBody (ltr_config : LTRModelConfig) (query_params : Val)
    (doc_ids : List String) : Val :=
  .vobj
    [ ("_source", .vobj [("includes", .varr [])])
    , ("query", .vobj
        [ ("bool", .vobj
            [ ("filter", .varr
                [ .vobj [("terms", .vobj [("_id", .varr (doc_ids.map Val.vstr))])]
                , .vobj [("sltr", .vobj
                    [ ("_name", .vstr "logged_featureset")
                    , ("featureset", .vstr ltr_config.featureset_name)
                    , ("params", query_params) ])] ]) ]) ])
    , ("ext", .vobj
        [ ("ltr_log", .vobj
            [ ("log_specs", .vobj
                [ ("name", .vstr "log_entry1")
                , ("named_query", .vstr "logged_featureset") ]) ]) ]) ]

/-- One iteration of the response loop in `extract_features`:
`doc_id = hit.get("_id")`, `ltr_log = hit.get("fields", {}).get("_ltrlog", [])`,
and `feature_values[doc_id] = ltr_log[0].get("log_entry1", [])` when
`ltr_log` is truthy and its first element is a dict. -/
def hitStep (hit : Val) : Except PyErr (Option (PyKey × Val)) :=
  match hit.pyGet "_id" .vnull with
  | .error e => .error e
  | .ok doc_id =>
    match hit.pyGet "fields" (.vobj []) with
    | .error e => .error e
    | .ok fields =>
      match fields.pyGet "_ltrlog" (.varr []) with
      | .error e => .error e
      | .ok ltr_log =>
        if ltr_log.truthy then
          match ltr_log.index0 with
          | .error e => .error e
          | .ok first =>
            if first.isDict then
              match first.pyGet "log_entry1" (.varr []) with
              | .error e => .error e
              | .ok entry =>
                match doc_id.asKey with
                | some k => .ok (some (k, entry))
                | none => .error (.otherException "TypeError: unhashable type")
            else .ok none
        else .ok none

/-- The (id, feature-value-list) pair a hit contributes to the result
mapping, when it contributes one: skipped hits and raising hits contribute
nothing. -/
def hitEntry? (hit : Val) : Option (PyKey × Val) :=
  match hitStep hit with
  | .ok (some kv) => some kv
  | _ => none

def processHit (acc : List (PyKey × Val)) (hit : Val) :
    Except PyErr (List (PyKey × Val)) :=
  match hitStep hit with
  | .error e => .error e
  | .ok none => .ok acc
  | .ok (some kv) => .ok (upsert acc kv.1 kv.2)

/-- Iterating a Python value: a list yields its elements, a dict its keys,
a string its characters; anything else raises `TypeError`. -/
def pyIter : Val → Except PyErr (List Val)
  | .varr xs => .ok xs
  | .vobj fields => .ok (fields.map (fun kv => Val.vstr kv.1))
  | .vstr s => .ok ((s.toList.map (fun c => Val.vstr (String.mk [c]))))
  | _ => .error (.otherException "TypeError: not iterable")

/-- The response loop of `extract_features` over an already-obtained list
of hits. -/
def parseHitsList (hits : List Val) : Except PyErr (List (PyKey × Val)) :=
  hits.foldlM processHit []

/-- Response handling of `extract_features`:
`response.get("hits", {}).get("hits", [])`, then the per-hit loop. -/
def parseHits (response : Val) : Except PyErr (List (PyKey × Val)) :=
  match response.pyGet "hits" (.vobj []) with
  | .error e => .error e
  | .ok outer =>
    match outer.pyGet "hits" (.varr []) with
    | .error e => .error e
    | .ok inner =>
      match pyIter inner with
      | .error e => .error e
      | .ok hits => parseHitsList hits

/-- `FeatureLogger.extract_features`: build the body, run one search,
degrade to an empty mapping on `ConnectionError` or `RequestError` (each
caught and printed), and otherwise parse the hits into the
`feature_values` dict. -/
def FeatureLogger.extract_features (fl : FeatureLogger σ) (s : σ)
    (query_params : Val) (doc_ids : List String) :
    σ × Except PyErr (List (PyKey × Val)) :=
  let body := extractFeaturesBody fl.ltr_config query_params doc_ids
  match fl.os_client.search s fl.index_name body with
  | (s', .error e) =>
      if e.isConnectionError then (s', .ok [])
      else if e.isRequestError then (s', .ok [])
      else (s', .error e)
  | (s', .ok response) => (s', parseHits response)

/-- `v[key]` lookup on an embedded dict, as a partial getter used to state
properties of built wire payloads. -/
def Val.objGet? : Val → String → Option Val
  | .vobj fields, key => lookupStr fields key
  | _, _ => none

/-- C5: For every list of feature extractors, the `feature_names` field of
the constructed `LTRModelConfig` equals the list of the extractors' feature
names in the same order, preserving duplicate names if present. -/
theorem c5_feature_names_in_order (pyhash : List String → Int)
    (fes : List QueryFeatureExtractor) :
    (LTRModelConfig.init pyhash fes).feature_names =
      fes.map (fun fe => fe.feature_name) := rfl

/-- C7: Within one process run (one fixed Python `hash`), `featureset_name`
is a deterministic function of the sequence of extractor feature names: two
configs built from extractor lists with equal name sequences get equal
names. -/
theorem c7_featureset_name_deterministic (pyhash : List String → Int)
    (fes1 fes2 : List QueryFeatureExtractor)
    (h : fes1.map (fun fe => fe.feature_name) =
         fes2.map (fun fe => fe.feature_name)) :
    (LTRModelConfig.init pyhash fes1).featureset_name =
      (LTRModelConfig.init pyhash fes2).featureset_name := by
  simp only [LTRModelConfig.init, h]

theorem c7_featureset_name_deterministic_witness :
    (LTRModelConfig.init (fun names => (names.length : Int))
        [QueryFeatureExtractor.init "title_match"
          (.vobj [("match", .vobj [("title", .vstr "\x7b\x7bquery\x7d\x7d")])]) none]).featureset_name =
      (LTRModelConfig.init (fun names => (names.length : Int))
        [QueryFeatureExtractor.init "title_match" (.vobj []) (some ["query", "other"])]).featureset_name :=
  c7_featureset_name_deterministic (fun names => (names.length : Int)) _ _ rfl

/-- C6: For every list of extractors with distinct names, the `features`
list under `featureset` in `LTRModelConfig.to_dict` is exactly the list of
the extractors' `to_dict` results, with the same length and order as the
input list. -/
theorem c6_to_dict_features_in_order (pyhash : List String → Int)
    (fes : List QueryFeatureExtractor)
    (_nodup : (fes.map (fun fe => fe.feature_name)).Nodup) :
    ((LTRModelConfig.init pyhash fes).to_dict.objGet? "featureset").bind
        (fun v => v.objGet? "features") =
      some (.varr (fes.map QueryFeatureExtractor.to_dict)) ∧
    (fes.map QueryFeatureExtractor.to_dict).length = fes.length := by
  refine ⟨?_, by simp⟩
  rfl

theorem c6_to_dict_features_in_order_witness :
    ((LTRModelConfig.init (fun _ => (-5 : Int))
        [ QueryFeatureExtractor.init "f1" (.vobj []) none
        , QueryFeatureExtractor.init "f2" (.vnull) (some ["q"]) ]).to_dict.objGet?
          "featureset").bind (fun v => v.objGet? "features") =
      some (.varr
        [ (QueryFeatureExtractor.init "f1" (.vobj []) none).to_dict
        , (QueryFeatureExtractor.init "f2" (.vnull) (some ["q"])).to_dict ]) :=
  (c6_to_dict_features_in_order (fun _ => (-5 : Int)) _ (by decide)).1

/-- C4 counterexample: constructed from the params list `[]`, `to_dict`
does not echo the given params — the `params` entry is `["query"]`, not
`[]`. -/
theorem c4_counterexample :
    (QueryFeatureExtractor.init "f1" (.vobj []) (some [])).to_dict.objGet? "params" =
      some (.varr [.vstr "query"]) ∧
    some (Val.varr [.vstr "query"]) ≠
      some (Val.varr (([] : List String).map Val.vstr)) := by
  constructor
  · rfl
  · intro h
    injection h with h1
    injection h1 with h2
    exact List.noConfusion h2

/-- C4 (amended to nonempty params lists): for every feature name, query
template and nonempty params list, `to_dict` is exactly the mapping with
keys `name`, `params`, `template_language` and `template`, where
`template_language` is `"mustache"` and the other three echo the
constructor arguments. -/
theorem c4_to_dict_echoes_arguments (feature_name : String) (query : Val)
    (ps : List String) (h : ps ≠ []) :
    (QueryFeatureExtractor.init feature_name query (some ps)).to_dict =
      .vobj
        [ ("name", .vstr feature_name)
        , ("params", .varr (ps.map Val.vstr))
        , ("template_language", .vstr "mustache")
        , ("template", query) ] := by
  have hne : ps.isEmpty = false := by
    cases ps with
    | nil => exact absurd rfl h
    | cons a as => rfl
  simp [QueryFeatureExtractor.init, QueryFeatureExtractor.to_dict, hne]

theorem c4_to_dict_echoes_arguments_witness :
    (QueryFeatureExtractor.init "body_match"
        (.vobj [("match", .vobj [("body", .vstr "\x7b\x7bquery\x7d\x7d")])])
        (some ["query"])).to_dict =
      .vobj
        [ ("name", .vstr "body_match")
        , ("params", .varr [.vstr "query"])
        , ("template_language", .vstr "mustache")
        , ("template", .vobj [("match", .vobj [("body", .vstr "\x7b\x7bquery\x7d\x7d")])]) ] :=
  c4_to_dict_echoes_arguments "body_match" _ ["query"] (by decide)

/-- C10: an empty params list is falsy in Python, so `params or ["query"]`
replaces it with the default: construction from `[]` stores `["query"]`,
coincides with omitting params, and no construction stores an empty params
list. -/
theorem c10_empty_params_defaulted (feature_name : String) (query : Val) :
    (QueryFeatureExtractor.init feature_name query (some [])).params = ["query"] ∧
    QueryFeatureExtractor.init feature_name query (some []) =
      QueryFeatureExtractor.init feature_name query none ∧
    (QueryFeatureExtractor.init feature_name query (some [])).to_dict.objGet?
        "params" = some (.varr [.vstr "query"]) ∧
    ∀ ps : Option (List String),
      (QueryFeatureExtractor.init feature_name query ps).params ≠ [] := by
  refine ⟨rfl, rfl, rfl, ?_⟩
  intro ps
  cases ps with
  | none => simp [QueryFeatureExtractor.init]
  | some l =>
      cases l with
      | nil => simp [QueryFeatureExtractor.init]
      | cons a as => simp [QueryFeatureExtractor.init]

/-- C1: whenever the underlying search call raises a `ConnectionError` or a
`RequestError`, `extract_features` returns the empty mapping instead of
propagating the exception. -/
theorem c1_extract_features_degrades_to_empty {σ : Type}
    (fl : FeatureLogger σ) (s : σ) (query_params : Val) (doc_ids : List String)
    (s' : σ) (e : PyErr)
    (hsearch : fl.os_client.search s fl.index_name
        (extractFeaturesBody fl.ltr_config query_params doc_ids) = (s', .error e))
    (he : e.isConnectionError = true ∨ e.isRequestError = true) :
    (fl.extract_features s query_params doc_ids).2 = .ok [] := by
  simp only [FeatureLogger.extract_features, hsearch]
  rcases he with h | h <;> cases e <;>
    simp_all [PyErr.isConnectionError, PyErr.isRequestError]

/-- A client whose search call always raises a `ConnectionError`, over the
trivial cluster state. -/
def downSearchClient : OSClient Unit :=
  { indicesCreate := fun s _ _ _ => (s, .ok (.vobj [("acknowledged", .vbool true)]))
    performRequest := fun s _ _ _ => (s, .ok (.vobj []))
    search := fun s _ _ => (s, .error (.connectionError "connection refused")) }

/-- A small concrete config used by concrete instantiations. -/
def sampleConfig : LTRModelConfig :=
  LTRModelConfig.init (fun _ => (42 : Int))
    [QueryFeatureExtractor.init "title_bm25"
      (.vobj [("match", .vobj [("title", .vstr "\x7b\x7bquery\x7d\x7d")])]) none]

theorem c1_extract_features_degrades_to_empty_witness :
    ((FeatureLogger.mk downSearchClient "docs" sampleConfig).extract_features ()
        (.vobj [("query", .vstr "hello")]) ["1", "2"]).2 = .ok [] :=
  c1_extract_features_degrades_to_empty
    (FeatureLogger.mk downSearchClient "docs" sampleConfig) ()
    (.vobj [("query", .vstr "hello")]) ["1", "2"] () (.connectionError "connection refused")
    rfl (Or.inl rfl)

/-- A client whose feature-set registration call raises a
`ConnectionError` while index creation succeeds. -/
def downRegistrationClient : OSClient Unit :=
  { indicesCreate := fun s _ _ _ => (s, .ok (.vobj [("acknowledged", .vbool true)]))
    performRequest := fun s _ _ _ => (s, .error (.connectionError "connection refused"))
    search := fun s _ _ => (s, .ok (.vobj [])) }

/-- C3 counterexample: `_register_featureset` catches only `RequestError`,
so a `ConnectionError` raised by the registration call propagates out of
`FeatureLogger.__init__` — construction does raise. -/
theorem c3_counterexample :
    FeatureLogger.construct downRegistrationClient "docs" sampleConfig () =
      .error (.connectionError "connection refused") := rfl

/-- C3 (amended): a registration failure of the request-rejection kind
(`RequestError`) is caught and construction completes; other exceptions
(e.g. `ConnectionError`) propagate. -/
theorem c3_construct_survives_requesterror {σ : Type} (client : OSClient σ)
    (index_name : String) (cfg : LTRModelConfig) (s s1 s2 : σ) (e : PyErr)
    (hinit : FeatureLogger.initialize_plugin client s = .ok s1)
    (hreg : client.performRequest s1 "POST"
        ("/_ltr/_featureset/" ++ cfg.featureset_name) cfg.to_dict =
        (s2, .error e))
    (he : e.isRequestError = true) :
    FeatureLogger.construct client index_name cfg s =
      .ok ({ os_client := client, index_name := index_name,
             ltr_config := cfg }, s2) := by
  unfold FeatureLogger.construct
  rw [hinit]
  show FeatureLogger.register_featureset client cfg s1 >>= _ = _
  unfold FeatureLogger.register_featureset
  rw [hreg]
  simp [he]
  rfl

/-- A client whose feature-set registration call raises a `RequestError`
(e.g. a malformed feature set rejected with status 400). -/
def rejectedRegistrationClient : OSClient Unit :=
  { indicesCreate := fun s _ _ _ => (s, .ok (.vobj [("acknowledged", .vbool true)]))
    performRequest := fun s _ _ _ => (s, .error (.requestError "bad featureset"))
    search := fun s _ _ => (s, .ok (.vobj [])) }

theorem c3_construct_survives_requesterror_witness :
    FeatureLogger.construct rejectedRegistrationClient "docs" sampleConfig () =
      .ok ({ os_client := rejectedRegistrationClient, index_name := "docs",
             ltr_config := sampleConfig }, ()) :=
  c3_construct_survives_requesterror rejectedRegistrationClient "docs"
    sampleConfig () () () (.requestError "bad featureset") rfl rfl rfl

/-- A client that records every `search(index, body)` call it receives in
its state (most recent first) and answers with a fixed response. -/
def recordingClient (resp : Except PyErr Val) : OSClient (List (String × Val)) :=
  { indicesCreate := fun st _ _ _ => (st, .ok (.vobj [("acknowledged", .vbool true)]))
    performRequest := fun st _ _ _ => (st, .ok (.vobj []))
    search := fun st index body => ((index, body) :: st, resp) }

/-- C8: `extract_features` issues exactly one search call, against the
configured index, and its body restricts documents to `doc_ids` via an
exact-match `terms` filter on `_id`, carries a named `sltr` clause invoking
the config's registered featureset name with `query_params`, carries an
`ext.ltr_log.log_specs` entry with the fixed log-entry name `log_entry1`
referencing the named clause `logged_featureset`, and suppresses source
fields via `_source.includes = []`. -/
theorem c8_search_body_shape (resp : Except PyErr Val) (cfg : LTRModelConfig)
    (index_name : String) (query_params : Val) (doc_ids : List String)
    (st : List (String × Val)) :
    ((FeatureLogger.mk (recordingClient resp) index_name cfg).extract_features
        st query_params doc_ids).1 =
      (index_name, extractFeaturesBody cfg query_params doc_ids) :: st ∧
    (((extractFeaturesBody cfg query_params doc_ids).objGet? "query").bind
        (fun v => v.objGet? "bool")).bind (fun v => v.objGet? "filter") =
      some (.varr
        [ .vobj [("terms", .vobj [("_id", .varr (doc_ids.map Val.vstr))])]
        , .vobj [("sltr", .vobj
            [ ("_name", .vstr "logged_featureset")
            , ("featureset", .vstr cfg.featureset_name)
            , ("params", query_params) ])] ]) ∧
    (extractFeaturesBody cfg query_params doc_ids).objGet? "ext" =
      some (.vobj
        [ ("ltr_log", .vobj
            [ ("log_specs", .vobj
                [ ("name", .vstr "log_entry1")
                , ("named_query", .vstr "logged_featureset") ]) ]) ]) ∧
    (extractFeaturesBody cfg query_params doc_ids).objGet? "_source" =
      some (.vobj [("includes", .varr [])]) := by
  refine ⟨?_, rfl, rfl, rfl⟩
  cases resp with
  | ok response => rfl
  | error e =>
      simp only [FeatureLogger.extract_features, recordingClient]
      cases e <;> simp [PyErr.isConnectionError, PyErr.isRequestError]

/-- The cluster as `indices.create` sees it: the set of existing indices.
Creating an existing index is a 400 `resource_already_exists` rejection,
which opensearchpy returns as a plain response body instead of raising when
the status is listed in `ignore`; creating a fresh index appends it.  The
feature-set registration and search transports answer with the fixed
responses given. -/
structure ClusterState where
  indices : List String
deriving DecidableEq

def clusterClient (regResp searchResp : Except PyErr Val) :
    OSClient ClusterState :=
  { indicesCreate := fun st index _ ignore =>
      if index ∈ st.indices then
        if 400 ∈ ignore then
          (st, .ok (.vobj
            [ ("status", .vnum 400)
            , ("error", .vstr "resource_already_exists_exception") ]))
        else (st, .error (.requestError "resource_already_exists_exception"))
      else ({ indices := st.indices ++ [index] }, .ok (.vobj [("acknowledged", .vbool true)]))
    performRequest := fun st _ _ _ => (st, regResp)
    search := fun st _ _ => (st, searchResp) }

/-- C9: against a cluster whose `.ltrstore` system index already exists,
the `_initialize_plugin` setup does not raise and leaves the index list
unchanged (no duplicate), running it twice does the same, and
`FeatureLogger` construction (whose registration call either succeeds or
is rejected with a caught `RequestError`) completes without raising and
without touching the index list. -/
theorem c9_initialize_plugin_idempotent (st : ClusterState)
    (hex : ".ltrstore" ∈ st.indices) (regResp searchResp : Except PyErr Val)
    (hreg : (∃ v, regResp = .ok v) ∨
            ∃ e, regResp = .error e ∧ e.isRequestError = true)
    (cfg : LTRModelConfig) (index_name : String) :
    FeatureLogger.initialize_plugin (clusterClient regResp searchResp) st =
      .ok st ∧
    (FeatureLogger.initialize_plugin (clusterClient regResp searchResp)
        st).bind
      (FeatureLogger.initialize_plugin (clusterClient regResp searchResp)) =
      .ok st ∧
    FeatureLogger.construct (clusterClient regResp searchResp) index_name cfg
        st =
      .ok ({ os_client := clusterClient regResp searchResp,
             index_name := index_name, ltr_config := cfg }, st) := by
  have hinit : FeatureLogger.initialize_plugin
      (clusterClient regResp searchResp) st = .ok st := by
    simp [FeatureLogger.initialize_plugin, clusterClient, hex]
  refine ⟨hinit, by rw [hinit]; exact hinit, ?_⟩
  unfold FeatureLogger.construct
  rw [hinit]
  show FeatureLogger.register_featureset _ cfg st >>= _ = _
  unfold FeatureLogger.register_featureset
  rcases hreg with ⟨v, hv⟩ | ⟨e, he, hr⟩
  · simp only [clusterClient, hv]
    rfl
  · simp only [clusterClient, he]
    simp [hr]
    rfl

theorem c9_initialize_plugin_idempotent_witness :
    FeatureLogger.construct
        (clusterClient (.ok (.vobj [("created", .vbool true)])) (.ok (.vobj [])))
        "docs" sampleConfig { indices := [".ltrstore", "docs"] } =
      .ok ({ os_client := clusterClient (.ok (.vobj [("created", .vbool true)]))
               (.ok (.vobj []))
           , index_name := "docs", ltr_config := sampleConfig },
           { indices := [".ltrstore", "docs"] }) :=
  (c9_initialize_plugin_idempotent { indices := [".ltrstore", "docs"] }
    (by decide) (.ok (.vobj [("created", .vbool true)])) (.ok (.vobj []))
    (Or.inl ⟨_, rfl⟩) sampleConfig "docs").2.2

theorem mem_upsert {m : List (PyKey × Val)} {k : PyKey} {v : Val}
    {kv : PyKey × Val} (h : kv ∈ upsert m k v) : kv ∈ m ∨ kv.1 = k := by
  induction m with
  | nil =>
      simp [upsert] at h
      right
      rw [h]
  | cons hd rest ih =>
      rcases hd with ⟨k', v'⟩
      rw [upsert] at h
      by_cases hk : k' = k
      · rw [if_pos hk] at h
        rcases List.mem_cons.mp h with h | h
        · right; rw [h]; exact hk
        · left; exact List.mem_cons_of_mem _ h
      · rw [if_neg hk] at h
        rcases List.mem_cons.mp h with h | h
        · left; rw [h]; exact List.mem_cons_self _ _
        · rcases ih h with h2 | h2
          · left; exact List.mem_cons_of_mem _ h2
          · right; exact h2

theorem foldlM_processHit_keys (hits : List Val) (acc m : List (PyKey × Val))
    (h : hits.foldlM processHit acc = .ok m) (kv : PyKey × Val) (hm : kv ∈ m) :
    kv ∈ acc ∨ ∃ hit ∈ hits, ∃ w, hitEntry? hit = some (kv.1, w) := by
  induction hits generalizing acc with
  | nil =>
      simp only [List.foldlM_nil] at h
      cases h
      exact Or.inl hm
  | cons hit rest ih =>
      rw [List.foldlM_cons] at h
      cases hp : processHit acc hit with
      | error e =>
          rw [hp] at h
          exact Except.noConfusion
            (show (Except.error e : Except PyErr (List (PyKey × Val))) = .ok m from h)
      | ok acc2 =>
          rw [hp] at h
          have h1 : rest.foldlM processHit acc2 = Except.ok m := h
          rcases ih acc2 h1 with hacc | ⟨hit2, hmem, w, hw⟩
          · unfold processHit at hp
            cases hs : hitStep hit with
            | error e => rw [hs] at hp; cases hp
            | ok c =>
                rw [hs] at hp
                cases c with
                | none =>
                    cases hp
                    exact Or.inl hacc
                | some kv2 =>
                    cases hp
                    rcases mem_upsert hacc with h2 | h2
                    · exact Or.inl h2
                    · refine Or.inr ⟨hit, List.mem_cons_self hit rest, kv2.2, ?_⟩
                      unfold hitEntry?
                      rw [hs, h2]
          · exact Or.inr ⟨hit2, List.mem_cons_of_mem hit hmem, w, hw⟩

/-- C2: on a successful search `extract_features` returns the parse of the
response; parsing walks the response's hits; a hit whose `_ltrlog` entry is
present and well-formed maps its document id to the logged feature-value
list taken from the hit's `fields._ltrlog[0].log_entry1`; a hit with a
missing `_ltrlog` field (or no `fields` at all) is skipped, leaving the
mapping unchanged; and every key of the result mapping comes from a hit
that contributed a log entry, so a skipped hit's document id is excluded
from the result mapping. -/
theorem c2_hit_mapping_and_skips :
    (∀ {σ : Type} (fl : FeatureLogger σ) (s : σ) (query_params : Val)
        (doc_ids : List String) (s' : σ) (response : Val),
      fl.os_client.search s fl.index_name
          (extractFeaturesBody fl.ltr_config query_params doc_ids) =
        (s', .ok response) →
      fl.extract_features s query_params doc_ids = (s', parseHits response)) ∧
    (∀ (response outer inner : Val) (hits : List Val),
      response.pyGet "hits" (.vobj []) = .ok outer →
      outer.pyGet "hits" (.varr []) = .ok inner →
      pyIter inner = .ok hits →
      parseHits response = parseHitsList hits) ∧
    (∀ (acc : List (PyKey × Val)) (hit : Val) (k : PyKey) (v : Val),
      hitEntry? hit = some (k, v) →
      processHit acc hit = .ok (upsert acc k v)) ∧
    (∀ (acc : List (PyKey × Val)) (hfields : List (String × Val)),
      (lookupStr hfields "fields" = none ∨
        ∃ ffields, lookupStr hfields "fields" = some (.vobj ffields) ∧
          lookupStr ffields "_ltrlog" = none) →
      processHit acc (.vobj hfields) = .ok acc) ∧
    (∀ (hits : List Val) (m : List (PyKey × Val)),
      parseHitsList hits = .ok m →
      ∀ kv ∈ m, ∃ hit ∈ hits, ∃ w, hitEntry? hit = some (kv.1, w)) := by
  refine ⟨?_, ?_, ?_, ?_, ?_⟩
  · intro σ fl s qp ids s' resp h
    simp only [FeatureLogger.extract_features, h]
  · intro resp outer inner hits h1 h2 h3
    simp only [parseHits, h1, h2, h3]
  · intro acc hit k v h
    unfold hitEntry? at h
    unfold processHit
    cases hs : hitStep hit with
    | error e =>
        rw [hs] at h
        exact Option.noConfusion h
    | ok c =>
        rw [hs] at h
        cases c with
        | none => exact Option.noConfusion h
        | some kv =>
            have h4 : kv = (k, v) := Option.some.inj h
            rw [h4]
  · intro acc hfields hf
    unfold processHit hitStep
    rcases hf with hnone | ⟨ffields, hsome, hnolog⟩
    · simp only [Val.pyGet, hnone, Option.getD_none,
        show lookupStr ([] : List (String × Val)) "_ltrlog" = none from rfl]
      rfl
    · simp only [Val.pyGet, hsome, hnolog, Option.getD_none, Option.getD_some]
      rfl
  · intro hits m h kv hkv
    have h2 : hits.foldlM processHit [] = Except.ok m := h
    rcases foldlM_processHit_keys hits [] m h2 kv hkv with h3 | h3
    · exact absurd h3 (List.not_mem_nil kv)
    · exact h3

theorem c2_hit_mapping_and_skips_witness :
    processHit []
        (.vobj [("_id", .vstr "1"), ("fields", .vobj [("_ltrlog",
          .varr [.vobj [("log_entry1", .varr [.vnum 1, .vnum 2])]])])]) =
      .ok [(.kstr "1", .varr [.vnum 1, .vnum 2])] ∧
    processHit []
        (.vobj [("_id", .vstr "2"), ("fields", .vobj [("other", .vnull)])]) =
      .ok [] := by
  constructor
  · exact c2_hit_mapping_and_skips.2.2.1 [] _ (.kstr "1")
      (.varr [.vnum 1, .vnum 2]) rfl
  · exact c2_hit_mapping_and_skips.2.2.2.1 []
      [("_id", .vstr "2"), ("fields", .vobj [("other", .vnull)])]
      (Or.inr ⟨[("other", .vnull)], rfl, rfl⟩)
